import Mathlib

/-!
Shallow embedding of the OCR screen in `src/app/(tabs)/ocr.tsx`.

Each handler (`pickImage`, `sendToOCR`) is modelled as a function from its
environment (permission outcome, picker outcome, configuration value, network
behaviour) to the list of observable events of one run: requests issued, alerts
shown, and writes to the screen's `useState` variables.  A separate function
applies the state writes to a screen state, so that both the effect traces and
the resulting states can be reasoned about.
-/

namespace Reshipi

/-- `image: { content: ... }` of the request-body literal. -/
structure ImagePayload where
  content : String
deriving DecidableEq, Repr

/-- One element of the `features` array of the request-body literal. -/
structure Feature where
  type : String
deriving DecidableEq, Repr

/-- One element of the `requests` array of the request-body literal. -/
structure OcrRequest where
  image : ImagePayload
  features : List Feature
deriving DecidableEq, Repr

/-- The JSON request body, mirrored field-by-field:
`{ requests: [ { image: { content }, features: [ { type } ] } ] }`. -/
structure RequestBody where
  requests : List OcrRequest
deriving DecidableEq, Repr

/-- The two fields of a parsed response body that `sendToOCR` consumes:
`error?.message` on the error path and `responses?.[0]?.fullTextAnnotation?.text`
on the success path; `none` models an absent field. -/
structure ParsedJson where
  errorMessage : Option String
  firstText : Option String
deriving DecidableEq, Repr

/-- The empty object substituted by `res.json().catch(() => ({}))` (line 113). -/
def emptyJson : ParsedJson := ⟨none, none⟩

/-- Result of calling `res.json()` on a response body: `fail m` when the
promise rejects with message `m`, `ok j` when it parses. -/
inductive BodyParse where
  | fail (msg : String)
  | ok (j : ParsedJson)
deriving DecidableEq, Repr

/-- The parsed body, or `none` when parsing rejects. -/
def BodyParse.toOption : BodyParse → Option ParsedJson
  | .fail _ => none
  | .ok j => some j

/-- Outcome of the awaited `fetch`: either the promise rejects with an error
message, or a response arrives with a status, a status text and a body. -/
inductive FetchOutcome where
  | reject (msg : String)
  | response (status : Nat) (statusText : String) (body : BodyParse)
deriving DecidableEq, Repr

/-- `res.ok` of the Fetch API: status in the 2xx range. -/
def resOk (status : Nat) : Bool := 200 ≤ status && status < 300

/-- JavaScript truthiness of the optional credential / base64 string:
`undefined` and the empty string are falsy. -/
def jsTruthy : Option String → Bool
  | none => false
  | some s => s != ""

/-- JavaScript `a || b` as used in `errorData.error?.message || res.statusText`
(line 114): an absent or empty message falls back to `b`. -/
def jsOrElse (a : Option String) (b : String) : String :=
  match a with
  | none => b
  | some s => if s = "" then b else s

/-- The environment one run of `sendToOCR` observes: the credential as re-read
from `Constants.expoConfig?.extra?.apiKey` (line 82) and the network behaviour. -/
structure SendEnv where
  apiKey : Option String
  fetch : FetchOutcome
deriving DecidableEq, Repr

/-- Observable effects and state writes of the screen's handlers. -/
inductive Event where
  | readConfig
  | setLoading (b : Bool)
  | permReq
  | pickerLaunch (base64 allowsEditing : Bool) (quality : Nat)
  | setImageUri (uri : String)
  | fetchReq (url method contentType : String) (body : RequestBody)
  | setOcrText (t : String)
  | alert (title msg : String)
deriving DecidableEq, Repr

def Event.isSetLoading : Event → Bool
  | .setLoading _ => true
  | _ => false

def Event.isFetchReq : Event → Bool
  | .fetchReq _ _ _ _ => true
  | _ => false

def Event.isSetOcrText : Event → Bool
  | .setOcrText _ => true
  | _ => false

def Event.isAlert : Event → Bool
  | .alert _ _ => true
  | _ => false

def Event.isPermReq : Event → Bool
  | .permReq => true
  | _ => false

def Event.isReadConfig : Event → Bool
  | .readConfig => true
  | _ => false

/-- `API_CONFIG.endpoint` (line 9). -/
def API_CONFIG_endpoint : String := "https://vision.googleapis.com/v1/images:annotate"

/-- The request-body literal of `sendToOCR` (lines 90–97):
`{ requests: [ { image: { content: base64 }, features: [ { type: "TEXT_DETECTION" } ] } ] }`. -/
def requestBody (base64 : String) : RequestBody :=
  ⟨[⟨⟨base64⟩, [⟨"TEXT_DETECTION"⟩]⟩]⟩

/-- The `catch` block of `sendToOCR` (lines 130–135) for a thrown `Error`
with message `m`: write the failure into the result text and alert. -/
def sendCatch (m : String) : List Event :=
  [.setOcrText ("识别失败: " ++ m), .alert "错误" ("OCR处理时发生错误: " ++ m)]

/-- The `try` block of `sendToOCR` (lines 81–129), with each `throw` routed
through `sendCatch`. -/
def sendTry (env : SendEnv) (base64 : String) : List Event :=
  match env.apiKey with
  | none => sendCatch "API密钥未配置"
  | some k =>
    if k = "" then sendCatch "API密钥未配置"
    else
      .fetchReq (API_CONFIG_endpoint ++ "?key=" ++ k) "POST" "application/json"
          (requestBody base64) ::
        match env.fetch with
        | .reject m => sendCatch m
        | .response status statusText body =>
          if resOk status then
            match body with
            | .fail m => sendCatch m
            | .ok j =>
              match j.firstText with
              | none => [.setOcrText "未检测到文本，请尝试其他图片。"]
              | some t =>
                if t = "" then [.setOcrText "未检测到文本，请尝试其他图片。"]
                else [.setOcrText t]
          else
            sendCatch ("API错误 (" ++ toString status ++ "): " ++
              jsOrElse ((body.toOption.getD emptyJson).errorMessage) statusText)

/-- One run of `sendToOCR` (lines 77–140): enter Loading, read the credential,
run the guarded body, and clear Loading in `finally`. -/
def sendToOCR (env : SendEnv) (base64 : String) : List Event :=
  .setLoading true :: .readConfig :: (sendTry env base64 ++ [.setLoading false])

/-- The message of the exception a run of `sendToOCR` throws internally,
`none` when the run reaches a successful interpretation. -/
def sendErrorMsg (env : SendEnv) : Option String :=
  if jsTruthy env.apiKey then
    match env.fetch with
    | .reject m => some m
    | .response status statusText body =>
      if resOk status then
        match body with
        | .fail m => some m
        | .ok _ => none
      else
        some ("API错误 (" ++ toString status ++ "): " ++
          jsOrElse ((body.toOption.getD emptyJson).errorMessage) statusText)
  else some "API密钥未配置"

/-- Outcome of `ImagePicker.requestMediaLibraryPermissionsAsync()`. -/
inductive PermOutcome where
  | reject
  | result (granted : Bool)
deriving DecidableEq, Repr

/-- Outcome of `ImagePicker.launchImageLibraryAsync`: a rejection, a cancelled
result, or a picked asset with a display URI and optional base64 data. -/
inductive PickerOutcome where
  | reject
  | canceled
  | picked (uri : String) (base64 : Option String)
deriving DecidableEq, Repr

/-- The environment one run of `pickImage` observes. -/
structure PickEnv where
  perm : PermOutcome
  picker : PickerOutcome
  send : SendEnv
deriving DecidableEq, Repr

/-- The outer `catch` of `pickImage` (lines 69–73). -/
def pickCatch : List Event := [.alert "错误" "选择图片时发生错误"]

/-- One run of `pickImage` (lines 34–74): gate on the configured flag, request
permission, launch the picker, and forward picked base64 data to `sendToOCR`. -/
def pickImage (apiConfigured : Bool) (env : PickEnv) : List Event :=
  if !apiConfigured then
    [.alert "配置错误" "API密钥未配置，请先设置app.config.js和.env文件"]
  else
    .permReq ::
      match env.perm with
      | .reject => pickCatch
      | .result granted =>
        if !granted then [.alert "权限错误" "需要相册访问权限"]
        else
          .pickerLaunch true true 1 ::
            match env.picker with
            | .reject => pickCatch
            | .canceled => []
            | .picked uri b64 =>
              .setImageUri uri ::
                if jsTruthy b64 then sendToOCR env.send (b64.getD "")
                else [.alert "错误" "无法获取图片数据"]

/-- The screen's `useState` variables (lines 14–17). -/
structure ScreenState where
  imageUri : Option String
  ocrText : String
  isLoading : Bool
  apiConfigured : Bool
deriving DecidableEq, Repr

/-- Initial values of the `useState` declarations. -/
def initialState : ScreenState := ⟨none, "", false, false⟩

/-- The one-shot `useEffect` mount effect (lines 20–31): read the configuration
and set the configured flag only when the credential is truthy. -/
def mount (apiKey : Option String) (s : ScreenState) : ScreenState :=
  if jsTruthy apiKey then { s with apiConfigured := true } else s

/-- Apply one event's state write (non-write events leave the state unchanged). -/
def applyEvent (s : ScreenState) : Event → ScreenState
  | .setLoading b => { s with isLoading := b }
  | .setOcrText t => { s with ocrText := t }
  | .setImageUri u => { s with imageUri := some u }
  | _ => s

/-- Apply a run's events to a screen state in order. -/
def applyEvents (s : ScreenState) (es : List Event) : ScreenState :=
  es.foldl applyEvent s

/-- The trigger button's `disabled` prop (line 165). -/
def buttonDisabled (s : ScreenState) : Bool := s.isLoading || !s.apiConfigured

/-! ### Helper lemmas -/

theorem sendTry_all_not_setLoading (env : SendEnv) (b64 : String) :
    (sendTry env b64).all (fun e => !e.isSetLoading) = true := by
  rcases env with ⟨key, fetch⟩
  rcases key with _ | k
  · rfl
  by_cases hk : k = ""
  · simp [sendTry, hk, sendCatch, Event.isSetLoading]
  rcases fetch with m | ⟨status, stText, body⟩
  · simp [sendTry, hk, sendCatch, Event.isSetLoading]
  by_cases hok : resOk status
  · rcases body with m | j
    · simp [sendTry, hk, hok, sendCatch, Event.isSetLoading]
    · rcases hft : j.firstText with _ | t
      · simp [sendTry, hk, hok, hft, sendCatch, Event.isSetLoading]
      · by_cases ht : t = "" <;>
          simp [sendTry, hk, hok, hft, ht, sendCatch, Event.isSetLoading]
  · simp [sendTry, hk, hok, sendCatch, Event.isSetLoading]

theorem not_setLoading_of_mem_sendTry (env : SendEnv) (b64 : String) :
    ∀ e ∈ sendTry env b64, e.isSetLoading = false := by
  have h := sendTry_all_not_setLoading env b64
  rw [List.all_eq_true] at h
  intro e he
  have := h e he
  simpa using this

theorem sendToOCR_eq_concat (env : SendEnv) (b64 : String) :
    sendToOCR env b64 =
      (Event.setLoading true :: Event.readConfig :: sendTry env b64) ++
        [Event.setLoading false] := by
  simp [sendToOCR]

theorem applyEvent_isLoading (s : ScreenState) (e : Event)
    (h : e.isSetLoading = false) :
    (applyEvent s e).isLoading = s.isLoading := by
  cases e <;> simp_all [applyEvent, Event.isSetLoading]

theorem applyEvents_isLoading (s : ScreenState) (es : List Event)
    (h : ∀ e ∈ es, e.isSetLoading = false) :
    (applyEvents s es).isLoading = s.isLoading := by
  induction es generalizing s with
  | nil => rfl
  | cons e es ih =>
    have h1 : e.isSetLoading = false := h e (List.mem_cons_self _ _)
    have h2 : ∀ x ∈ es, x.isSetLoading = false :=
      fun x hx => h x (List.mem_cons_of_mem _ hx)
    calc (applyEvents s (e :: es)).isLoading
        = (applyEvents (applyEvent s e) es).isLoading := rfl
      _ = (applyEvent s e).isLoading := ih (applyEvent s e) h2
      _ = s.isLoading := applyEvent_isLoading s e h1

theorem sendTry_error (env : SendEnv) (b64 m : String)
    (h : sendErrorMsg env = some m) :
    sendTry env b64 = sendCatch m ∨
    ∃ u meth ct bd, sendTry env b64 = .fetchReq u meth ct bd :: sendCatch m := by
  rcases env with ⟨key, fetch⟩
  rcases key with _ | k
  · left
    simp [sendErrorMsg, jsTruthy] at h
    subst h
    rfl
  by_cases hk : k = ""
  · left
    subst hk
    simp [sendErrorMsg, jsTruthy] at h
    subst h
    simp [sendTry]
  have hkt : jsTruthy (some k) = true := by simp [jsTruthy, hk]
  rcases fetch with m0 | ⟨status, stText, body⟩
  · simp [sendErrorMsg, hkt] at h
    subst h
    right
    refine ⟨API_CONFIG_endpoint ++ "?key=" ++ k, "POST", "application/json",
      requestBody b64, ?_⟩
    simp [sendTry, hk]
  by_cases hok : resOk status
  · rcases body with m0 | j
    · simp [sendErrorMsg, hkt, hok] at h
      subst h
      right
      refine ⟨API_CONFIG_endpoint ++ "?key=" ++ k, "POST", "application/json",
        requestBody b64, ?_⟩
      simp [sendTry, hk, hok]
    · simp [sendErrorMsg, hkt, hok] at h
  · simp [sendErrorMsg, hkt, hok] at h
    right
    refine ⟨API_CONFIG_endpoint ++ "?key=" ++ k, "POST", "application/json",
      requestBody b64, ?_⟩
    simp [sendTry, hk, hok, h]

/-! ### Claims -/

/-- C3 counterexample: a permission-denied error (step 2) shows a blocking
alert but performs no update of the result text, so not every error in steps
2–5 produces both. -/
theorem pickImage_perm_denied_no_text_update :
    pickImage true ⟨.result false, .canceled, ⟨none, .reject ""⟩⟩ =
      [.permReq, .alert "权限错误" "需要相册访问权限"] ∧
    (pickImage true
        (⟨.result false, .canceled, ⟨none, .reject ""⟩⟩ : PickEnv)).filter
      Event.isSetOcrText = [] :=
  ⟨rfl, rfl⟩

/-- C3 amended: every error thrown inside the transmit-and-interpret step
(`sendToOCR`) produces both a result-text update and a blocking alert carrying
the same underlying message; errors in the permission and acquisition steps
produce an alert only. -/
theorem sendToOCR_error_text_and_alert (env : SendEnv) (b64 m : String)
    (h : sendErrorMsg env = some m) :
    Event.setOcrText ("识别失败: " ++ m) ∈ sendToOCR env b64 ∧
    Event.alert "错误" ("OCR处理时发生错误: " ++ m) ∈ sendToOCR env b64 := by
  rcases sendTry_error env b64 m h with h1 | ⟨u, meth, ct, bd, h1⟩ <;>
    simp [sendToOCR, h1, sendCatch]

theorem sendToOCR_error_text_and_alert_witness :
    Event.setOcrText ("识别失败: " ++ "API密钥未配置") ∈
        sendToOCR ⟨none, .reject "x"⟩ "img" ∧
    Event.alert "错误" ("OCR处理时发生错误: " ++ "API密钥未配置") ∈
        sendToOCR ⟨none, .reject "x"⟩ "img" :=
  sendToOCR_error_text_and_alert ⟨none, .reject "x"⟩ "img" "API密钥未配置" rfl

/-- C6: a cancelled picker ends the run silently: the trace is just the
permission request and the picker launch — no alert, no Loading — and the
screen state (in particular `ocrText`) is unchanged. -/
theorem pickImage_cancel_silent (env : PickEnv) (s : ScreenState)
    (hperm : env.perm = .result true) (hpick : env.picker = .canceled) :
    pickImage true env = [.permReq, .pickerLaunch true true 1] ∧
    applyEvents s (pickImage true env) = s := by
  rcases env with ⟨perm, picker, send⟩
  cases hperm
  cases hpick
  exact ⟨rfl, rfl⟩

theorem sendTry_success (env : SendEnv) (b64 : String) (status : Nat)
    (stText : String) (j : ParsedJson) (k : String)
    (hkey : env.apiKey = some k) (hk : k ≠ "")
    (hf : env.fetch = .response status stText (.ok j))
    (hok : resOk status = true) :
    sendTry env b64 =
      [.fetchReq (API_CONFIG_endpoint ++ "?key=" ++ k) "POST" "application/json"
          (requestBody b64),
        .setOcrText (match j.firstText with
          | none => "未检测到文本，请尝试其他图片。"
          | some t => if t = "" then "未检测到文本，请尝试其他图片。" else t)] := by
  rcases env with ⟨key, fetch⟩
  cases hkey
  cases hf
  rcases hft : j.firstText with _ | t
  · simp [sendTry, hk, hok, hft]
  · by_cases ht : t = "" <;> simp [sendTry, hk, hok, hft, ht]

/-- C4: on a 2xx response whose body parses, the result text is set to
`responses[0].fullTextAnnotation.text` verbatim when that text is present and
non-empty, and to the fixed placeholder when it is missing or empty; the run
shows no alert (treated as success). -/
theorem sendToOCR_success_text (env : SendEnv) (b64 : String) (status : Nat)
    (stText : String) (j : ParsedJson) (s : ScreenState) (k : String)
    (hkey : env.apiKey = some k) (hk : k ≠ "")
    (hf : env.fetch = .response status stText (.ok j))
    (hok : resOk status = true) :
    (∀ t, j.firstText = some t → t ≠ "" →
      (applyEvents s (sendToOCR env b64)).ocrText = t) ∧
    ((j.firstText = none ∨ j.firstText = some "") →
      (applyEvents s (sendToOCR env b64)).ocrText = "未检测到文本，请尝试其他图片。") ∧
    (sendToOCR env b64).filter Event.isAlert = [] := by
  have hs := sendTry_success env b64 status stText j k hkey hk hf hok
  refine ⟨?_, ?_, ?_⟩
  · intro t hft ht
    simp [sendToOCR, hs, hft, ht, applyEvents, applyEvent]
  · intro hft
    rcases hft with hft | hft <;>
      simp [sendToOCR, hs, hft, applyEvents, applyEvent]
  · simp [sendToOCR, hs, Event.isAlert]

theorem sendToOCR_success_text_witness :
    (applyEvents initialState
        (sendToOCR ⟨some "k", .response 200 "OK" (.ok ⟨none, some "Hello"⟩)⟩
          "img")).ocrText = "Hello" :=
  (sendToOCR_success_text ⟨some "k", .response 200 "OK" (.ok ⟨none, some "Hello"⟩)⟩
      "img" 200 "OK" ⟨none, some "Hello"⟩ initialState "k"
      rfl (by decide) rfl (by decide)).1 "Hello" rfl (by decide)

theorem sendTry_httpError (env : SendEnv) (b64 : String) (status : Nat)
    (stText : String) (body : BodyParse) (k : String)
    (hkey : env.apiKey = some k) (hk : k ≠ "")
    (hf : env.fetch = .response status stText body)
    (hok : resOk status = false) :
    sendTry env b64 =
      .fetchReq (API_CONFIG_endpoint ++ "?key=" ++ k) "POST" "application/json"
          (requestBody b64) ::
        sendCatch ("API错误 (" ++ toString status ++ "): " ++
          jsOrElse ((body.toOption.getD emptyJson).errorMessage) stText) := by
  rcases env with ⟨key, fetch⟩
  cases hkey
  cases hf
  simp [sendTry, hk, hok]

/-- C5: on a non-2xx response, the failure message is
`API错误 (status): ` followed by the server-supplied `error.message` when the
body parses to a non-empty one (so the result text and the alert both contain
it), and by the HTTP status text when the body is unparseable or lacks a
message; a message is always produced. -/
theorem sendToOCR_http_error_message (env : SendEnv) (b64 : String) (status : Nat)
    (stText : String) (body : BodyParse) (s : ScreenState) (k : String)
    (hkey : env.apiKey = some k) (hk : k ≠ "")
    (hf : env.fetch = .response status stText body)
    (hok : resOk status = false) :
    (applyEvents s (sendToOCR env b64)).ocrText =
      "识别失败: " ++ ("API错误 (" ++ toString status ++ "): " ++
        jsOrElse ((body.toOption.getD emptyJson).errorMessage) stText) ∧
    Event.alert "错误" ("OCR处理时发生错误: " ++ ("API错误 (" ++ toString status ++
        "): " ++ jsOrElse ((body.toOption.getD emptyJson).errorMessage) stText)) ∈
      sendToOCR env b64 ∧
    (∀ m, (body.toOption.getD emptyJson).errorMessage = some m → m ≠ "" →
      ∃ p q, (applyEvents s (sendToOCR env b64)).ocrText = p ++ m ++ q) ∧
    ((body.toOption.getD emptyJson).errorMessage = none →
      (applyEvents s (sendToOCR env b64)).ocrText =
        "识别失败: " ++ ("API错误 (" ++ toString status ++ "): " ++ stText)) := by
  have hs := sendTry_httpError env b64 status stText body k hkey hk hf hok
  have htext : (applyEvents s (sendToOCR env b64)).ocrText =
      "识别失败: " ++ ("API错误 (" ++ toString status ++ "): " ++
        jsOrElse ((body.toOption.getD emptyJson).errorMessage) stText) := by
    simp [sendToOCR, hs, sendCatch, applyEvents, applyEvent]
  refine ⟨htext, ?_, ?_, ?_⟩
  · simp [sendToOCR, hs, sendCatch]
  · intro m hm hme
    refine ⟨"识别失败: " ++ ("API错误 (" ++ toString status ++ "): "), "", ?_⟩
    rw [htext, hm]
    simp [jsOrElse, hme, String.append_assoc]
  · intro hm
    rw [htext, hm]
    simp [jsOrElse]

theorem sendToOCR_http_error_message_witness :
    (applyEvents initialState
        (sendToOCR ⟨some "k",
          .response 400 "Bad Request" (.ok ⟨some "Bad image", none⟩)⟩
          "img")).ocrText =
      "识别失败: " ++ ("API错误 (" ++ toString 400 ++ "): " ++
        jsOrElse ((BodyParse.toOption (.ok ⟨some "Bad image", none⟩)).getD
          emptyJson).errorMessage "Bad Request") :=
  (sendToOCR_http_error_message
      ⟨some "k", .response 400 "Bad Request" (.ok ⟨some "Bad image", none⟩)⟩
      "img" 400 "Bad Request" (.ok ⟨some "Bad image", none⟩) initialState "k"
      rfl (by decide) rfl (by decide)).1

theorem pickImage_cancel_silent_witness :
    pickImage true ⟨.result true, .canceled, ⟨none, .reject ""⟩⟩ =
      [.permReq, .pickerLaunch true true 1] ∧
    applyEvents initialState
        (pickImage true ⟨.result true, .canceled, ⟨none, .reject ""⟩⟩) =
      initialState :=
  pickImage_cancel_silent ⟨.result true, .canceled, ⟨none, .reject ""⟩⟩
    initialState rfl rfl

/-- C1: every run of `sendToOCR` enters Loading as its very first step (hence
before the request is issued) and clears it as its final step, so `isLoading`
is false after the run on every exit path — success, handled HTTP error, and
thrown exception alike. -/
theorem sendToOCR_clears_loading (env : SendEnv) (b64 : String) (s : ScreenState) :
    (sendToOCR env b64).head? = some (.setLoading true) ∧
    (sendToOCR env b64).getLast? = some (.setLoading false) ∧
    (applyEvents s (sendToOCR env b64)).isLoading = false := by
  refine ⟨rfl, ?_, ?_⟩
  · rw [sendToOCR_eq_concat, List.getLast?_concat]
  · rw [sendToOCR_eq_concat, applyEvents, List.foldl_append]
    rfl

/-- C2: with the configured flag false, a trigger run is exactly one
configuration alert — no permission request and no network call occur. -/
theorem pickImage_unconfigured (env : PickEnv) :
    pickImage false env =
      [.alert "配置错误" "API密钥未配置，请先设置app.config.js和.env文件"] ∧
    (pickImage false env).filter Event.isPermReq = [] ∧
    (pickImage false env).filter Event.isFetchReq = [] :=
  ⟨rfl, rfl, rfl⟩

theorem sendTry_shape (env : SendEnv) (b64 : String) :
    (jsTruthy env.apiKey = false ∧ sendTry env b64 = sendCatch "API密钥未配置") ∨
    (∃ k rest, env.apiKey = some k ∧ k ≠ "" ∧
      sendTry env b64 =
        .fetchReq (API_CONFIG_endpoint ++ "?key=" ++ k) "POST" "application/json"
            (requestBody b64) :: rest ∧
      ∀ e ∈ rest, e.isFetchReq = false) := by
  rcases env with ⟨key, fetch⟩
  rcases key with _ | k
  · exact .inl ⟨rfl, rfl⟩
  by_cases hk : k = ""
  · subst hk
    exact .inl ⟨by simp [jsTruthy], by simp [sendTry]⟩
  right
  rcases fetch with m | ⟨status, stText, body⟩
  · exact ⟨k, sendCatch m, rfl, hk, by simp [sendTry, hk],
      by simp [sendCatch, Event.isFetchReq]⟩
  by_cases hok : resOk status
  · rcases body with m | j
    · exact ⟨k, sendCatch m, rfl, hk, by simp [sendTry, hk, hok],
        by simp [sendCatch, Event.isFetchReq]⟩
    · rcases hft : j.firstText with _ | t
      · exact ⟨k, [.setOcrText "未检测到文本，请尝试其他图片。"], rfl, hk,
          by simp [sendTry, hk, hok, hft], by simp [Event.isFetchReq]⟩
      · by_cases ht : t = ""
        · exact ⟨k, [.setOcrText "未检测到文本，请尝试其他图片。"], rfl, hk,
            by simp [sendTry, hk, hok, hft, ht], by simp [Event.isFetchReq]⟩
        · exact ⟨k, [.setOcrText t], rfl, hk,
            by simp [sendTry, hk, hok, hft, ht], by simp [Event.isFetchReq]⟩
  · exact ⟨k, sendCatch ("API错误 (" ++ toString status ++ "): " ++
        jsOrElse ((body.toOption.getD emptyJson).errorMessage) stText), rfl, hk,
      by simp [sendTry, hk, hok], by simp [sendCatch, Event.isFetchReq]⟩

/-- C7: the network requests issued by a `sendToOCR` run are exactly one POST
to the fixed endpoint with the credential as the `?key=` query parameter, the
JSON content type and the request-body literal built from the picker's
base64 data (and none at all when the credential is absent or empty). -/
theorem sendToOCR_request_shape (env : SendEnv) (b64 : String) :
    (sendToOCR env b64).filter Event.isFetchReq =
      match env.apiKey with
      | none => []
      | some k =>
        if k = "" then []
        else [.fetchReq (API_CONFIG_endpoint ++ "?key=" ++ k) "POST"
          "application/json" (requestBody b64)] := by
  rcases sendTry_shape env b64 with ⟨hkf, heq⟩ | ⟨k, rest, hkey, hk, heq, hrest⟩
  · rcases hkey : env.apiKey with _ | k
    · simp [sendToOCR, heq, sendCatch, Event.isFetchReq]
    · rw [hkey] at hkf
      have hke : k = "" := by
        by_contra hne
        simp [jsTruthy, hne] at hkf
      simp [sendToOCR, heq, sendCatch, Event.isFetchReq, hke]
  · have hfil : rest.filter Event.isFetchReq = [] := by
      rw [List.filter_eq_nil_iff]
      intro a ha
      simp [hrest a ha]
    simp [sendToOCR, heq, hkey, hk, hfil, Event.isFetchReq]

/-- C8 counterexample: the configuration is read again inside a transmit run —
the `readConfig` effect occurs in `sendToOCR`, after component initialization,
so the credential is not read exactly once at mount. -/
theorem sendToOCR_rereads_config :
    Event.readConfig ∈ sendToOCR ⟨some "k", .reject "e"⟩ "img" := by
  simp [sendToOCR]

/-- C8 amended: the mount effect computes the configured flag from the
credential read at initialization and the trigger gate relies only on that
flag (an unconfigured trigger performs no configuration read), but every
transmit run re-reads the credential from the host configuration. -/
theorem credential_read_at_mount_and_each_send (apiKey : Option String)
    (env : SendEnv) (b64 : String) (penv : PickEnv) :
    (mount apiKey initialState).apiConfigured = jsTruthy apiKey ∧
    Event.readConfig ∈ sendToOCR env b64 ∧
    (pickImage false penv).filter Event.isReadConfig = [] := by
  refine ⟨?_, ?_, rfl⟩
  · cases h : jsTruthy apiKey <;> simp [mount, h, initialState]
  · simp [sendToOCR]

theorem loading_during_take (env : SendEnv) (b64 : String) (s : ScreenState)
    (j : ℕ) (hj : j ≤ (Event.readConfig :: sendTry env b64).length) :
    (applyEvents s (Event.setLoading true ::
      (((Event.readConfig :: sendTry env b64) ++
        [Event.setLoading false]).take j))).isLoading = true := by
  rw [List.take_append_of_le_length hj]
  have hmem : ∀ e ∈ (Event.readConfig :: sendTry env b64).take j,
      e.isSetLoading = false := by
    intro e he
    have hmem2 := List.take_subset j (Event.readConfig :: sendTry env b64) he
    rcases List.mem_cons.mp hmem2 with h | h
    · subst h
      rfl
    · exact not_setLoading_of_mem_sendTry env b64 e h
  calc (applyEvents s (Event.setLoading true ::
          (Event.readConfig :: sendTry env b64).take j)).isLoading
      = (applyEvents (applyEvent s (Event.setLoading true))
          ((Event.readConfig :: sendTry env b64).take j)).isLoading := rfl
    _ = (applyEvent s (Event.setLoading true)).isLoading :=
        applyEvents_isLoading _ _ hmem
    _ = true := rfl

/-- C9: starting from a state that is not Loading, `isLoading` is true at
every point strictly inside a `sendToOCR` run and false once it completes,
and the trigger control is disabled whenever `isLoading` is true — so at most
one transmit-and-interpret run is in flight at a time. -/
theorem loading_iff_in_flight (env : SendEnv) (b64 : String) (s : ScreenState)
    (i : ℕ) (hs : s.isLoading = false) :
    (applyEvents s ((sendToOCR env b64).take 0)).isLoading = false ∧
    (0 < i → i < (sendToOCR env b64).length →
      (applyEvents s ((sendToOCR env b64).take i)).isLoading = true) ∧
    (applyEvents s (sendToOCR env b64)).isLoading = false ∧
    (∀ st : ScreenState, st.isLoading = true → buttonDisabled st = true) := by
  refine ⟨hs, ?_, ?_, ?_⟩
  · intro h1 h2
    rcases i with _ | j
    · exact (Nat.lt_irrefl 0 h1).elim
    have hlen : (sendToOCR env b64).length = (sendTry env b64).length + 3 := by
      simp [sendToOCR]
    rw [hlen] at h2
    have hj : j ≤ (Event.readConfig :: sendTry env b64).length := by
      simp only [List.length_cons]
      omega
    have htake : (sendToOCR env b64).take (j + 1) =
        Event.setLoading true ::
          (((Event.readConfig :: sendTry env b64) ++
            [Event.setLoading false]).take j) := by
      simp [sendToOCR]
    rw [htake]
    exact loading_during_take env b64 s j hj
  · rw [sendToOCR_eq_concat, applyEvents, List.foldl_append]
    rfl
  · intro st hst
    simp [buttonDisabled, hst]

theorem loading_iff_in_flight_witness :
    (applyEvents initialState
      ((sendToOCR ⟨none, .reject "e"⟩ "img").take 0)).isLoading = false ∧
    (0 < 1 → 1 < (sendToOCR ⟨none, .reject "e"⟩ "img").length →
      (applyEvents initialState
        ((sendToOCR ⟨none, .reject "e"⟩ "img").take 1)).isLoading = true) ∧
    (applyEvents initialState (sendToOCR ⟨none, .reject "e"⟩ "img")).isLoading
      = false ∧
    (∀ st : ScreenState, st.isLoading = true → buttonDisabled st = true) :=
  loading_iff_in_flight ⟨none, .reject "e"⟩ "img" initialState 1 rfl

/-- C10: a non-cancelled picker result updates the displayed image URI before
the encoded-data check; on the no-encoded-data error path the preview is still
replaced with the new image while the previous result text is unchanged. -/
theorem pickImage_sets_uri_before_data_check (env : PickEnv) (s : ScreenState)
    (uri : String) (b64 : Option String)
    (hperm : env.perm = .result true) (hpick : env.picker = .picked uri b64) :
    pickImage true env =
      [.permReq, .pickerLaunch true true 1, .setImageUri uri] ++
        (if jsTruthy b64 then sendToOCR env.send (b64.getD "")
         else [.alert "错误" "无法获取图片数据"]) ∧
    (jsTruthy b64 = false →
      pickImage true env =
        [.permReq, .pickerLaunch true true 1, .setImageUri uri,
          .alert "错误" "无法获取图片数据"] ∧
      (applyEvents s (pickImage true env)).imageUri = some uri ∧
      (applyEvents s (pickImage true env)).ocrText = s.ocrText) := by
  rcases env with ⟨perm, picker, send⟩
  cases hperm
  cases hpick
  constructor
  · simp [pickImage]
  · intro hb
    refine ⟨?_, ?_, ?_⟩ <;> simp [pickImage, hb, applyEvents, applyEvent]

theorem pickImage_sets_uri_before_data_check_witness :
    pickImage true ⟨.result true, .picked "file://a" none, ⟨none, .reject ""⟩⟩ =
      [.permReq, .pickerLaunch true true 1, .setImageUri "file://a"] ++
        (if jsTruthy none then
          sendToOCR (⟨none, .reject ""⟩ : SendEnv) (Option.getD none "")
         else [.alert "错误" "无法获取图片数据"]) ∧
    (jsTruthy none = false →
      pickImage true
          ⟨.result true, .picked "file://a" none, ⟨none, .reject ""⟩⟩ =
        [.permReq, .pickerLaunch true true 1, .setImageUri "file://a",
          .alert "错误" "无法获取图片数据"] ∧
      (applyEvents initialState (pickImage true
        ⟨.result true, .picked "file://a" none, ⟨none, .reject ""⟩⟩)).imageUri
        = some "file://a" ∧
      (applyEvents initialState (pickImage true
        ⟨.result true, .picked "file://a" none, ⟨none, .reject ""⟩⟩)).ocrText
        = initialState.ocrText) :=
  pickImage_sets_uri_before_data_check
    ⟨.result true, .picked "file://a" none, ⟨none, .reject ""⟩⟩
    initialState "file://a" none rfl rfl

end Reshipi
